import Mathlib

/-!
Verification of the rainmaker-dashboard scoring and aggregation pipeline.

The development shallowly embeds the two Python modules of the repository:
`collect.py` (namespace `Collect`: magnitude-policy sentiment classifier,
brand-score aggregator, date-keyed rolling merge of the dashboard state) and
`scorer.py` (namespace `Scorer`: ratio-policy sentiment classifier, engagement
scorer, posts-mode merge).  Machine floats are idealised as rationals; Python's
built-in `round` (round half to even) is modelled by `pyRound`.
-/

/-- Python's `round` on a rational: nearest integer, ties to the even one. -/
def pyRound (q : ℚ) : ℤ :=
  if q - (⌊q⌋ : ℚ) < 1/2 then ⌊q⌋
  else if (1 : ℚ)/2 < q - (⌊q⌋ : ℚ) then ⌊q⌋ + 1
  else if Even ⌊q⌋ then ⌊q⌋ else ⌊q⌋ + 1

/-- Python's tail slice `l[-n:]`: the last `min n (length l)` elements. -/
def takeLast {α : Type} (l : List α) (n : ℕ) : List α :=
  l.drop (l.length - n)

/-- Substring test on character lists (`needle` occurs inside `hay`),
modelling Python's `needle in hay` for strings. -/
def listSub {α : Type} [BEq α] (needle : List α) : List α → Bool
  | [] => needle.isEmpty
  | a :: t => needle.isPrefixOf (a :: t) || listSub needle t

/-- Python's `text.lower()`, as the character sequence searched for
keywords (characters are lowercased individually, like `str.lower`). -/
def lowerChars (s : String) : List Char :=
  s.data.map Char.toLower

/-- Python's `needle in hay` on strings, `hay` given as its characters. -/
def strIn (needle : String) (hay : List Char) : Bool :=
  listSub needle.data hay

/-- Python's character slice `s[:n]`. -/
def strTake (s : String) (n : ℕ) : String :=
  String.mk (s.data.take n)

namespace Collect

def POSITIVE_WORDS : List String :=
  ["great", "amazing", "excellent", "love", "brilliant", "innovative", "solve",
   "solving", "solution", "hero", "impressive", "breakthrough", "future",
   "real deal", "incredible", "fantastic", "support", "proud", "exciting",
   "hope", "helpful", "progress", "success", "positive", "good", "awesome",
   "transformative", "revolutionary", "game changer", "life saving"]

def NEGATIVE_WORDS : List String :=
  ["scam", "fraud", "dangerous", "flood", "drought", "blame", "held accountable",
   "conspiracy", "hoax", "unproven", "destroy", "damage", "harm", "risk",
   "lawsuit", "corrupt", "chemtrail", "poison", "terrible", "awful", "worst",
   "reckless", "irresponsible", "fake", "lie", "lies", "grift", "grifter",
   "catastrophe", "disaster", "toxic", "threat", "threatening"]

/-- Number of distinct positive keywords occurring in the lowercased text. -/
def posCount (text : String) : ℕ :=
  POSITIVE_WORDS.countP (fun w => strIn w (lowerChars text))

/-- Number of distinct negative keywords occurring in the lowercased text. -/
def negCount (text : String) : ℕ :=
  NEGATIVE_WORDS.countP (fun w => strIn w (lowerChars text))

/-- `collect.py score_sentiment`: magnitude policy. -/
def score_sentiment (text : String) : String × ℚ :=
  if negCount text < posCount text then
    ("positive", min (1/2 + (posCount text : ℚ) * (3/20)) (19/20))
  else if posCount text < negCount text then
    ("negative", min (1/2 + (negCount text : ℚ) * (3/20)) (19/20))
  else
    ("neutral", 1/2)

/-- One scored tweet as produced by `score_tweets` and consumed by
`compute_brand_score` / `build_dashboard_json`. -/
structure ScoredTweet where
  id : String
  text : String
  username : String
  created_at : String
  sentiment : String
  confidence : ℚ
  reach : ℤ
  reply_count : ℕ
  like_count : ℕ
deriving DecidableEq

/-- `collect.py compute_brand_score`. -/
def compute_brand_score (scored : List ScoredTweet) : ℤ :=
  if scored = [] then 50
  else
    let total : ℚ := (scored.length : ℚ)
    let pos : ℚ := (scored.countP (fun t => t.sentiment == "positive") : ℚ)
    let neg : ℚ := (scored.countP (fun t => t.sentiment == "negative") : ℚ)
    let sumReach : ℤ := (scored.map (fun t => t.reach)).sum
    let total_reach : ℚ := if sumReach = 0 then 1 else (sumReach : ℚ)
    let pos_reach : ℚ :=
      (((scored.filter (fun t => t.sentiment == "positive")).map
        (fun t => t.reach)).sum : ℚ)
    let neg_reach : ℚ :=
      (((scored.filter (fun t => t.sentiment == "negative")).map
        (fun t => t.reach)).sum : ℚ)
    let count_score : ℚ := (pos - neg) / total * 50 + 50
    let reach_score : ℚ := (pos_reach - neg_reach) / total_reach * 50 + 50
    let score : ℚ := count_score * (2/5) + reach_score * (3/5)
    max 0 (min 100 (pyRound score))

/-- One entry of the persisted `scores` series in `data.json`. -/
structure DailyScore where
  date : String
  score : ℤ
  positive : ℤ
  negative : ℤ
  neutral : ℤ
  totalTweets : ℕ
deriving DecidableEq

/-- `round(c / total * 100) if total else 0` from the score-entry literal. -/
def pct (c total : ℕ) : ℤ :=
  if total = 0 then 0 else pyRound ((c : ℚ) / (total : ℚ) * 100)

/-- The score entry appended by `build_dashboard_json` for today's batch. -/
def mkDailyEntry (scored : List ScoredTweet) (today : String)
    (brand_score : ℤ) : DailyScore :=
  let total := scored.length
  let pos := scored.countP (fun t => t.sentiment == "positive")
  let neg := scored.countP (fun t => t.sentiment == "negative")
  let neu := total - pos - neg
  { date := today, score := brand_score, positive := pct pos total,
    negative := pct neg total, neutral := pct neu total, totalTweets := total }

/-- Score-series merge: drop entries dated today, append the new entry,
keep the last 90 (`scores[-90:]`). -/
def updateScores (existing : List DailyScore) (today : String)
    (entry : DailyScore) : List DailyScore :=
  takeLast (existing.filter (fun s => s.date != today) ++ [entry]) 90

/-- A persisted risk alert.  The deduplication key is the `post` field
(`f"{username} — {created_at[:10]}"`); the purely informational payload
fields `metrics`, `replyLikeRatio` and the formatted `reason` string are not
modelled (no claim depends on them). -/
structure RiskAlert where
  severity : String
  post : String
  text : String
  date : String
deriving DecidableEq

def CONSPIRACY_KEYWORDS : List String :=
  ["chemtrail", "weather control", "government", "conspiracy", "hoax",
   "geo-engineer", "haarp"]

/-- The per-tweet alert-detection step of the loop in `build_dashboard_json`:
`some alert` when the trigger condition fires, otherwise `none`. -/
def detectAlert (today : String) (t : ScoredTweet) : Option RiskAlert :=
  let rq : ℚ :=
    if 0 < t.like_count then (t.reply_count : ℚ) / (t.like_count : ℚ) else 0
  let has_conspiracy := CONSPIRACY_KEYWORDS.any (fun kw => strIn kw (lowerChars t.text))
  if (3/20 : ℚ) < rq ∨ (t.sentiment = "negative" ∧ 50000 < t.reach) ∨
      has_conspiracy = true then
    some { severity := if (1/4 : ℚ) < rq ∨ has_conspiracy = true
                       then "HIGH" else "MEDIUM",
           post := t.username ++ " — " ++ strTake t.created_at 10,
           text := strTake t.text 200,
           date := if t.created_at ≠ "" then strTake t.created_at 10 else today }
  else none

/-- One iteration of the alert loop: append unless the `post` key is already
present (first-seen wins). -/
def dedupAppend (acc : List RiskAlert) (a : RiskAlert) : List RiskAlert :=
  if acc.any (fun r => r.post == a.post) then acc else acc ++ [a]

/-- All detected alerts appended (with key dedup) to the persisted list. -/
def foldAlerts (existing news : List RiskAlert) : List RiskAlert :=
  news.foldl dedupAppend existing

/-- Alert merge including the cap: `risk_alerts[-50:]`. -/
def mergeAlerts (existing news : List RiskAlert) : List RiskAlert :=
  takeLast (foldAlerts existing news) 50

/-- One projected entry of the `topMentions` snapshot. -/
structure TopMention where
  user : String
  text : String
  sentiment : String
  reach : ℤ
  date : String
deriving DecidableEq

/-- The fields of the persisted `data.json` that `build_dashboard_json`
reads back (`scores`, `riskAlerts`, and the pass-through blobs
`accountProfiles` / `aggregate`, modelled as opaque association lists). -/
structure Existing where
  scores : List DailyScore
  riskAlerts : List RiskAlert
  accountProfiles : List (String × String)
  aggregate : List (String × String)
deriving DecidableEq

/-- The dashboard document written by `build_dashboard_json` (the `meta`
block, whose fields are run-time constants, is not modelled). -/
structure Dashboard where
  scores : List DailyScore
  riskAlerts : List RiskAlert
  accountProfiles : List (String × String)
  aggregate : List (String × String)
  topMentions : List TopMention
deriving DecidableEq

/-- `collect.py build_dashboard_json`, with the already-loaded existing state
and today's date passed explicitly. -/
def build_dashboard_json (scored : List ScoredTweet) (brand_score : ℤ)
    (existing : Existing) (today : String) : Dashboard :=
  let top_mentions :=
    (scored.mergeSort (fun a b => decide (b.reach ≤ a.reach))).take 20
  { scores := updateScores existing.scores today
      (mkDailyEntry scored today brand_score),
    riskAlerts := mergeAlerts existing.riskAlerts
      (scored.filterMap (detectAlert today)),
    accountProfiles := existing.accountProfiles,
    aggregate := existing.aggregate,
    topMentions := top_mentions.map (fun t =>
      { user := t.username, text := strTake t.text 280, sentiment := t.sentiment,
        reach := t.reach,
        date := if t.created_at ≠ "" then strTake t.created_at 10 else today }) }

/-- Reading the persisted fields back from a written dashboard (a second run
loads exactly what the first run wrote). -/
def toExisting (d : Dashboard) : Existing :=
  { scores := d.scores, riskAlerts := d.riskAlerts,
    accountProfiles := d.accountProfiles, aggregate := d.aggregate }

/-- The empty default shape: `{"scores": [], "topMentions": []}` plus the
defaults the `.get` calls substitute for the other keys. -/
def emptyExisting : Existing :=
  { scores := [], riskAlerts := [], accountProfiles := [], aggregate := [] }

end Collect

/-- Outcome of reading a persisted state file: the file is missing, its
content fails to decode, or it decodes to a value. -/
inductive LoadResult (α : Type) where
  | absent : LoadResult α
  | malformed : LoadResult α
  | ok : α → LoadResult α
deriving DecidableEq

namespace Collect

/-- The load step of `build_dashboard_json` (lines 203-208): start from the
empty default and overwrite it only when the file exists and decodes; the
bare `except: pass` swallows decode failures. -/
def loadExisting : LoadResult Existing → Existing
  | .ok v => v
  | _ => emptyExisting

end Collect

namespace Scorer

/-- `RISK_KEYWORDS["negative"]` from `scorer.py`. -/
def RISK_KEYWORDS_negative : List String :=
  ["scam", "fraud", "lawsuit", "complaint", "ripped off", "terrible",
   "sued", "criminal", "ponzi", "ripoff", "avoid", "worst", "fake"]

/-- `RISK_KEYWORDS["positive"]` from `scorer.py`. -/
def RISK_KEYWORDS_positive : List String :=
  ["love", "recommend", "amazing", "best", "great", "excellent",
   "incredible", "fantastic", "impressed", "helpful", "brilliant"]

/-- Number of distinct positive keywords occurring in the lowercased text. -/
def posKw (text : String) : ℕ :=
  RISK_KEYWORDS_positive.countP (fun kw => strIn kw (lowerChars text))

/-- Number of distinct negative keywords occurring in the lowercased text. -/
def negKw (text : String) : ℕ :=
  RISK_KEYWORDS_negative.countP (fun kw => strIn kw (lowerChars text))

/-- `scorer.py score_sentiment`: ratio policy, score in [-1, 1].  The divisor
is `total = pos + neg`, written as a sum of casts. -/
def score_sentiment (text : String) : String × ℚ :=
  if posKw text + negKw text = 0 then ("neutral", 0)
  else
    let score : ℚ :=
      ((posKw text : ℚ) - (negKw text : ℚ)) /
        ((posKw text : ℚ) + (negKw text : ℚ))
    if (1/5 : ℚ) < score then ("positive", score)
    else if score < -(1/5 : ℚ) then ("negative", score)
    else ("mixed", score)

/-- `scorer.py detect_risk`: the negative risk keywords found in the text. -/
def detect_risk (text : String) : List String :=
  RISK_KEYWORDS_negative.filter (fun kw => strIn kw (lowerChars text))

/-- `ENGAGEMENT_WEIGHTS`, in dict insertion order. -/
def ENGAGEMENT_WEIGHTS : List (String × ℚ) :=
  [("likes", 1), ("retweets", 3), ("reposts", 3), ("replies", 5),
   ("views", 1/1000)]

/-- Python's `metrics.get(key, 0)` over a metrics mapping. -/
def lookupD (m : List (String × ℚ)) (k : String) : ℚ :=
  match m.find? (fun p => p.1 == k) with
  | some p => p.2
  | none => 0

/-- Python's `round(x, 2)`. -/
def roundTo2 (q : ℚ) : ℚ :=
  (pyRound (q * 100) : ℚ) / 100

/-- `scorer.py score_engagement`: weighted sum of the recognized interaction
counts, rounded to 2 decimal places. -/
def score_engagement (metrics : List (String × ℚ)) : ℚ :=
  roundTo2 (ENGAGEMENT_WEIGHTS.foldl
    (fun tot p => tot + lookupD metrics p.1 * p.2) 0)

/-- A post of the `initial-pull.json` shape, before scoring.  `sentiment` is
`none` when the key is missing or holds a falsy value other than the empty
string, and `risk_flag` is `none` exactly when the key is missing. -/
structure Post where
  account : String
  content : String
  metrics : List (String × ℚ)
  sentiment : Option String
  risk_flag : Option Bool
  topics : List String
deriving DecidableEq

/-- A post after `score_existing_post` (all scoring keys populated). -/
structure ScoredPost where
  account : String
  content : String
  metrics : List (String × ℚ)
  sentiment : String
  engagement_score : ℚ
  risk_keywords : List String
  risk_flag : Bool
  topics : List String
deriving DecidableEq

/-- Python truthiness of `post.get("sentiment")`: present and non-empty. -/
def truthyStr : Option String → Bool
  | none => false
  | some s => !(s == "")

/-- `scorer.py score_existing_post`. -/
def score_existing_post (post : Post) : ScoredPost :=
  let text := post.content
  let sentiment_label := (score_sentiment text).1
  let risks := detect_risk text
  let engagement := score_engagement post.metrics
  { account := post.account, content := post.content, metrics := post.metrics,
    sentiment := if truthyStr post.sentiment
                 then post.sentiment.getD "" else sentiment_label,
    engagement_score := engagement,
    risk_keywords := risks,
    risk_flag := post.risk_flag.getD (!risks.isEmpty),
    topics := post.topics }

/-- The decoded `initial-pull.json` document. -/
structure PullData where
  recentPosts : List Post
  riskSignals : List String
  accounts : List (String × String)
deriving DecidableEq

/-- The document after `process_existing` rewrote `recentPosts` and
`riskSignals`. -/
structure ProcessedData where
  recentPosts : List ScoredPost
  riskSignals : List String
  accounts : List (String × String)
deriving DecidableEq

/-- The body of `process_existing` after a successful decode: score every
post, sort by engagement descending (stable), and union risk keywords and
topics of flagged posts into `riskSignals`.  Python materialises the union
via an unordered `set`; it is determinised here by first-occurrence dedup. -/
def processBody (data : PullData) : ProcessedData :=
  let scored_posts := (data.recentPosts.map score_existing_post).mergeSort
    (fun a b => decide (b.engagement_score ≤ a.engagement_score))
  let all_risks := (data.riskSignals ++
    ((scored_posts.filter (fun p => p.risk_flag)).map
      (fun p => p.risk_keywords ++ p.topics)).flatten).eraseDups
  { recentPosts := scored_posts, riskSignals := all_risks,
    accounts := data.accounts }

/-- `scorer.py process_existing`: `open()` raises on a missing file and
`json.load` raises on undecodable content — there is no handler, so only a
successful decode produces a value. -/
def process_existing : LoadResult PullData → Except Unit ProcessedData
  | .ok data => .ok (processBody data)
  | _ => .error ()

/-- The empty default shape built in `scorer.py main` when the pull file is
absent: `{"recentPosts": [], "accounts": {}}`. -/
def defaultData : ProcessedData :=
  { recentPosts := [], riskSignals := [], accounts := [] }

/-- The load step of `scorer.py main`: `process_existing` is called only when
the pull file exists; an absent file falls back to the empty default. -/
def mainLoad : LoadResult PullData → Except Unit ProcessedData
  | .absent => .ok defaultData
  | r => process_existing r

end Scorer

/-! ## General lemmas about the rounding and slicing helpers -/

theorem floor_le_pyRound (q : ℚ) : ⌊q⌋ ≤ pyRound q := by
  unfold pyRound
  split_ifs <;> omega

theorem pyRound_le_floor_add_one (q : ℚ) : pyRound q ≤ ⌊q⌋ + 1 := by
  unfold pyRound
  split_ifs <;> omega

theorem sub_half_le_pyRound (q : ℚ) : q - 1/2 ≤ (pyRound q : ℚ) := by
  have h1 : (⌊q⌋ : ℚ) ≤ q := Int.floor_le q
  have h2 : q < (⌊q⌋ : ℚ) + 1 := Int.lt_floor_add_one q
  unfold pyRound
  split_ifs <;> push_cast <;> linarith

theorem pyRound_le_add_half (q : ℚ) : (pyRound q : ℚ) ≤ q + 1/2 := by
  have h1 : (⌊q⌋ : ℚ) ≤ q := Int.floor_le q
  have h2 : q < (⌊q⌋ : ℚ) + 1 := Int.lt_floor_add_one q
  unfold pyRound
  split_ifs <;> push_cast <;> linarith

theorem abs_pyRound_sub_le (q : ℚ) : |(pyRound q : ℚ) - q| ≤ 1/2 := by
  have h1 := sub_half_le_pyRound q
  have h2 := pyRound_le_add_half q
  rw [abs_le]
  constructor <;> linarith

theorem pyRound_nonneg {q : ℚ} (h : 0 ≤ q) : 0 ≤ pyRound q := by
  have := floor_le_pyRound q
  have : (0 : ℤ) ≤ ⌊q⌋ := Int.floor_nonneg.mpr h
  omega

theorem pyRound_intCast (n : ℤ) : pyRound (n : ℚ) = n := by
  unfold pyRound
  rw [Int.floor_intCast, sub_self]
  norm_num

theorem pyRound_mono {q r : ℚ} (h : q ≤ r) : pyRound q ≤ pyRound r := by
  rcases lt_or_le ⌊q⌋ ⌊r⌋ with hf | hf
  · have h1 := pyRound_le_floor_add_one q
    have h2 := floor_le_pyRound r
    omega
  · have hfe : ⌊q⌋ = ⌊r⌋ := le_antisymm (Int.floor_le_floor h) hf
    unfold pyRound
    rw [hfe]
    split_ifs <;> first | omega | linarith

theorem takeLast_sublist {α : Type} (l : List α) (n : ℕ) :
    (takeLast l n).Sublist l :=
  List.drop_sublist _ _

theorem length_takeLast_le {α : Type} (l : List α) (n : ℕ) :
    (takeLast l n).length ≤ n := by
  simp only [takeLast, List.length_drop]
  omega

theorem takeLast_append_singleton {α : Type} (l : List α) (x : α) (n : ℕ)
    (hn : 1 ≤ n) :
    takeLast (l ++ [x]) n = l.drop ((l.length + 1) - n) ++ [x] := by
  unfold takeLast
  rw [List.length_append]
  simp only [List.length_cons, List.length_nil]
  rw [List.drop_append_of_le_length (by omega)]

/-! ## C4: magnitude-policy sentiment classifier (`collect.py score_sentiment`) -/

/-- C4: for every input text the magnitude-policy classifier lowercases the
text, counts distinct matching positive and negative keywords, and returns
`("positive", min (0.5 + 0.15·pos) 0.95)` when `pos > neg`,
`("negative", min (0.5 + 0.15·neg) 0.95)` when `neg > pos`, and
`("neutral", 0.5)` otherwise; in particular any text with zero keyword
matches yields `("neutral", 0.5)`. -/
theorem C4_magnitude_policy (text : String) :
    (Collect.negCount text < Collect.posCount text →
      Collect.score_sentiment text =
        ("positive", min (1/2 + (Collect.posCount text : ℚ) * (3/20)) (19/20))) ∧
    (Collect.posCount text < Collect.negCount text →
      Collect.score_sentiment text =
        ("negative", min (1/2 + (Collect.negCount text : ℚ) * (3/20)) (19/20))) ∧
    (Collect.posCount text = Collect.negCount text →
      Collect.score_sentiment text = ("neutral", 1/2)) ∧
    (Collect.posCount text = 0 → Collect.negCount text = 0 →
      Collect.score_sentiment text = ("neutral", 1/2)) := by
  unfold Collect.score_sentiment
  refine ⟨fun h => ?_, fun h => ?_, fun h => ?_, fun h1 h2 => ?_⟩
  · rw [if_pos h]
  · rw [if_neg (by omega), if_pos h]
  · rw [if_neg (by omega), if_neg (by omega)]
  · rw [if_neg (by omega), if_neg (by omega)]

/-- C4 witness: `"amazing"` matches exactly one positive keyword, and a text
with no keyword matches is neutral with confidence 1/2. -/
theorem C4_witness :
    (Collect.negCount "amazing" < Collect.posCount "amazing" ∧
      Collect.score_sentiment "amazing" =
        ("positive",
          min (1/2 + (Collect.posCount "amazing" : ℚ) * (3/20)) (19/20))) ∧
    (Collect.posCount "zzz" = 0 ∧ Collect.negCount "zzz" = 0 ∧
      Collect.score_sentiment "zzz" = ("neutral", 1/2)) :=
  ⟨⟨by decide, (C4_magnitude_policy "amazing").1 (by decide)⟩,
   ⟨by decide, by decide,
    (C4_magnitude_policy "zzz").2.2.2 (by decide) (by decide)⟩⟩

/-! ## C5: ratio-policy sentiment classifier (`scorer.py score_sentiment`) -/

/-- C5: the ratio-policy classifier returns `("neutral", 0)` exactly when no
keyword matches; otherwise it returns the polarity `(pos − neg)/(pos + neg)`
labelled `positive` above 0.2, `negative` below −0.2, and `mixed` in between;
the label always lies in {positive, negative, neutral, mixed} (and the result
is a pure function of the text, being a Lean function). -/
theorem C5_ratio_policy (text : String) :
    (Scorer.score_sentiment text).1 ∈
      (["positive", "negative", "neutral", "mixed"] : List String) ∧
    (Scorer.score_sentiment text = ("neutral", 0) ↔
      Scorer.posKw text + Scorer.negKw text = 0) ∧
    (0 < Scorer.posKw text + Scorer.negKw text →
      (((1 : ℚ)/5 < ((Scorer.posKw text : ℚ) - (Scorer.negKw text : ℚ)) /
            ((Scorer.posKw text : ℚ) + (Scorer.negKw text : ℚ)) →
        Scorer.score_sentiment text =
          ("positive", ((Scorer.posKw text : ℚ) - (Scorer.negKw text : ℚ)) /
            ((Scorer.posKw text : ℚ) + (Scorer.negKw text : ℚ)))) ∧
       (((Scorer.posKw text : ℚ) - (Scorer.negKw text : ℚ)) /
            ((Scorer.posKw text : ℚ) + (Scorer.negKw text : ℚ)) < -(1/5) →
        Scorer.score_sentiment text =
          ("negative", ((Scorer.posKw text : ℚ) - (Scorer.negKw text : ℚ)) /
            ((Scorer.posKw text : ℚ) + (Scorer.negKw text : ℚ)))) ∧
       (-(1/5) ≤ ((Scorer.posKw text : ℚ) - (Scorer.negKw text : ℚ)) /
            ((Scorer.posKw text : ℚ) + (Scorer.negKw text : ℚ)) →
        ((Scorer.posKw text : ℚ) - (Scorer.negKw text : ℚ)) /
            ((Scorer.posKw text : ℚ) + (Scorer.negKw text : ℚ)) ≤ 1/5 →
        Scorer.score_sentiment text =
          ("mixed", ((Scorer.posKw text : ℚ) - (Scorer.negKw text : ℚ)) /
            ((Scorer.posKw text : ℚ) + (Scorer.negKw text : ℚ)))))) := by
  unfold Scorer.score_sentiment
  by_cases h0 : Scorer.posKw text + Scorer.negKw text = 0
  · rw [if_pos h0]
    exact ⟨by simp, by simp [h0], fun h => absurd h (by omega)⟩
  · rw [if_neg h0]
    by_cases h1 : (1 : ℚ)/5 < ((Scorer.posKw text : ℚ) - (Scorer.negKw text : ℚ)) /
        ((Scorer.posKw text : ℚ) + (Scorer.negKw text : ℚ))
    · rw [if_pos h1]
      exact ⟨by simp, ⟨by simp, fun h => absurd h h0⟩,
        fun h => ⟨fun _ => rfl, fun h2 => absurd h2 (by linarith),
          fun h2 h3 => absurd h3 (by linarith)⟩⟩
    · rw [if_neg h1]
      by_cases h2 : ((Scorer.posKw text : ℚ) - (Scorer.negKw text : ℚ)) /
          ((Scorer.posKw text : ℚ) + (Scorer.negKw text : ℚ)) < -(1/5)
      · rw [if_pos h2]
        exact ⟨by simp, ⟨by simp, fun h => absurd h h0⟩,
          fun h => ⟨fun h3 => absurd h3 h1, fun _ => rfl,
            fun h3 h4 => absurd h3 (by linarith)⟩⟩
      · rw [if_neg h2]
        exact ⟨by simp, ⟨by simp, fun h => absurd h h0⟩,
          fun h => ⟨fun h3 => absurd h3 h1, fun h3 => absurd h3 h2,
            fun _ _ => rfl⟩⟩

/-- C5 witness: `"I love this scam"` has one positive and one negative match,
polarity 0, hence label `mixed`; `"nothing here"` matches nothing. -/
theorem C5_witness :
    (Scorer.score_sentiment "qqq" = ("neutral", 0) ↔
      Scorer.posKw "qqq" + Scorer.negKw "qqq" = 0) ∧
    (Scorer.score_sentiment "I love this scam").1 ∈
      (["positive", "negative", "neutral", "mixed"] : List String) ∧
    Scorer.score_sentiment "I love this scam" =
      ("mixed", ((Scorer.posKw "I love this scam" : ℚ) -
          (Scorer.negKw "I love this scam" : ℚ)) /
        ((Scorer.posKw "I love this scam" : ℚ) +
          (Scorer.negKw "I love this scam" : ℚ))) :=
  ⟨(C5_ratio_policy "qqq").2.1,
   (C5_ratio_policy "I love this scam").1,
   ((C5_ratio_policy "I love this scam").2.2 (by decide)).2.2
     (by norm_num [show Scorer.posKw "I love this scam" = 1 from by decide,
        show Scorer.negKw "I love this scam" = 1 from by decide])
     (by norm_num [show Scorer.posKw "I love this scam" = 1 from by decide,
        show Scorer.negKw "I love this scam" = 1 from by decide])⟩

/-! ## C10: field preservation in `scorer.py score_existing_post` -/

/-- C10: a post whose `sentiment` is present and truthy keeps it (the fresh
classifier label is discarded, and is used exactly when the stored value is
missing or falsy); a post whose `risk_flag` key is present keeps its value
even when it is `false`; `risk_keywords` and `engagement_score` are always
recomputed from the post's content and metrics. -/
theorem C10_score_existing_post (post : Scorer.Post) :
    (∀ s, post.sentiment = some s → s ≠ "" →
      (Scorer.score_existing_post post).sentiment = s) ∧
    (∀ b, post.risk_flag = some b →
      (Scorer.score_existing_post post).risk_flag = b) ∧
    (Scorer.score_existing_post post).risk_keywords =
      Scorer.detect_risk post.content ∧
    (Scorer.score_existing_post post).engagement_score =
      Scorer.score_engagement post.metrics ∧
    ((post.sentiment = none ∨ post.sentiment = some "") →
      (Scorer.score_existing_post post).sentiment =
        (Scorer.score_sentiment post.content).1) := by
  refine ⟨?_, ?_, rfl, rfl, ?_⟩
  · intro s hs hne
    simp [Scorer.score_existing_post, Scorer.truthyStr, hs, hne]
  · intro b hb
    simp [Scorer.score_existing_post, hb]
  · rintro (h | h) <;> simp [Scorer.score_existing_post, Scorer.truthyStr, h]

/-- C10 witness: a post with stored sentiment `"positive"` and stored
`risk_flag = false` keeps both, although its text matches the risk keyword
`"scam"`. -/
theorem C10_witness :
    (Scorer.score_existing_post
      ⟨"acct", "total scam", [("likes", 4)], some "positive", some false,
        []⟩).sentiment = "positive" ∧
    (Scorer.score_existing_post
      ⟨"acct", "total scam", [("likes", 4)], some "positive", some false,
        []⟩).risk_flag = false ∧
    Scorer.detect_risk "total scam" = ["scam"] :=
  ⟨(C10_score_existing_post _).1 "positive" rfl (by decide),
   (C10_score_existing_post _).2.1 false rfl,
   by decide⟩

/-! ## C6: tolerance of absent or malformed persisted state -/

/-- C6 counterexample: the posts-mode load (`scorer.py process_existing`)
does not tolerate undecodable content — `json.load` raises and there is no
handler, so the run aborts instead of proceeding with the empty default. -/
theorem C6_counterexample :
    Scorer.process_existing LoadResult.malformed = Except.error () := rfl

/-- C6 amended: the date-keyed dashboard load of `build_dashboard_json`
treats both absent and undecodable state as the empty default and never
fails, and a decoded state is used as-is; the posts-mode path tolerates only
an absent file (via the `exists()` check in `main`), while undecodable
content makes `process_existing` — and hence the run — fail. -/
theorem C6_amended :
    Collect.loadExisting LoadResult.absent = Collect.emptyExisting ∧
    Collect.loadExisting LoadResult.malformed = Collect.emptyExisting ∧
    (∀ v, Collect.loadExisting (LoadResult.ok v) = v) ∧
    Scorer.mainLoad LoadResult.absent = Except.ok Scorer.defaultData ∧
    (∀ d, Scorer.process_existing (LoadResult.ok d) =
      Except.ok (Scorer.processBody d)) ∧
    Scorer.process_existing LoadResult.malformed = Except.error () ∧
    Scorer.mainLoad LoadResult.malformed = Except.error () :=
  ⟨rfl, rfl, fun _ => rfl, rfl, fun _ => rfl, rfl, rfl⟩

/-! ## C8: behaviour of the merge on an empty batch -/

/-- C8 counterexample: on an empty scored batch `build_dashboard_json` does
perform a score-series update — it appends a fresh entry for today, so the
stored series changes (here from `[]` to a one-entry list). -/
theorem C8_counterexample :
    (Collect.build_dashboard_json [] 50 Collect.emptyExisting
      "2026-10-12").scores ≠ Collect.emptyExisting.scores := by
  decide

/-- C8 amended: on an empty batch the brand-score aggregator returns the
neutral default 50 and `build_dashboard_json` carries the pass-through fields
(`accountProfiles`, `aggregate`) forward unmodified and empties the
top-mentions snapshot, but it still updates the score series, appending a
zero-count entry for today. -/
theorem C8_amended (existing : Collect.Existing) (today : String) (bs : ℤ) :
    Collect.compute_brand_score [] = 50 ∧
    (Collect.build_dashboard_json [] bs existing today).accountProfiles =
      existing.accountProfiles ∧
    (Collect.build_dashboard_json [] bs existing today).aggregate =
      existing.aggregate ∧
    (Collect.build_dashboard_json [] bs existing today).topMentions = [] ∧
    (Collect.build_dashboard_json [] bs existing today).scores =
      Collect.updateScores existing.scores today
        (Collect.mkDailyEntry [] today bs) ∧
    Collect.mkDailyEntry [] today bs =
      { date := today, score := bs, positive := 0, negative := 0,
        neutral := 0, totalTweets := 0 } := by
  refine ⟨rfl, rfl, rfl, ?_, rfl, rfl⟩
  simp [Collect.build_dashboard_json]

/-! ## C1: brand-score aggregator (`collect.py compute_brand_score`) -/

/-- C1: the brand score is an integer in [0, 100] for every batch, exactly
50 for the empty batch, and for a non-empty batch with non-negative reach it
equals `round(count_score·0.4 + reach_score·0.6)` clamped to [0, 100], with
`count_score = (pos − neg)/total·50 + 50` and
`reach_score = (pos_reach − neg_reach)/max(total_reach, 1)·50 + 50`. -/
theorem C1_compute_brand_score :
    (∀ l : List Collect.ScoredTweet,
      0 ≤ Collect.compute_brand_score l ∧
        Collect.compute_brand_score l ≤ 100) ∧
    Collect.compute_brand_score [] = 50 ∧
    (∀ l : List Collect.ScoredTweet, l ≠ [] → (∀ t ∈ l, (0 : ℤ) ≤ t.reach) →
      Collect.compute_brand_score l =
        max 0 (min 100 (pyRound (
          (((l.countP (fun t => t.sentiment == "positive") : ℚ) -
            (l.countP (fun t => t.sentiment == "negative") : ℚ)) /
              (l.length : ℚ) * 50 + 50) * (2/5) +
          (((((l.filter (fun t => t.sentiment == "positive")).map
                (fun t => t.reach)).sum : ℚ) -
            (((l.filter (fun t => t.sentiment == "negative")).map
                (fun t => t.reach)).sum : ℚ)) /
              max (((l.map (fun t => t.reach)).sum : ℤ) : ℚ) 1 * 50 + 50) *
            (3/5))))) := by
  refine ⟨?_, rfl, ?_⟩
  · intro l
    unfold Collect.compute_brand_score
    by_cases hl : l = []
    · rw [if_pos hl]
      exact ⟨by norm_num, by norm_num⟩
    · rw [if_neg hl]
      exact ⟨le_max_left 0 _, max_le (by norm_num) (min_le_left _ _)⟩
  · intro l hl hr
    have hs : (0 : ℤ) ≤ (l.map (fun t => t.reach)).sum := by
      apply List.sum_nonneg
      intro x hx
      obtain ⟨t, ht, rfl⟩ := List.mem_map.mp hx
      exact hr t ht
    simp only [Collect.compute_brand_score, if_neg hl]
    have htr : (if (l.map (fun t => t.reach)).sum = 0 then (1 : ℚ)
        else (((l.map (fun t => t.reach)).sum : ℤ) : ℚ)) =
        max (((l.map (fun t => t.reach)).sum : ℤ) : ℚ) 1 := by
      rcases eq_or_lt_of_le hs with h0 | h0
      · rw [if_pos h0.symm, ← h0]
        norm_num
      · rw [if_neg (by omega)]
        have h1 : (1 : ℚ) ≤ (((l.map (fun t => t.reach)).sum : ℤ) : ℚ) := by
          exact_mod_cast h0
        exact (max_eq_left h1).symm
    rw [htr]

/-- C1 witness: a single positive tweet with reach 10 scores 100. -/
theorem C1_witness :
    Collect.compute_brand_score
      [⟨"1", "", "@u", "", "positive", 1/2, 10, 0, 0⟩] = 100 :=
  (C1_compute_brand_score.2.2
      [⟨"1", "", "@u", "", "positive", 1/2, 10, 0, 0⟩]
      (by decide) (by decide)).trans
    (by norm_num [pyRound, List.countP_cons, List.countP_nil, List.filter,
      List.sum_cons, List.sum_nil,
      show (("positive" : String) = "negative") = False from by simp,
      show (("positive" : String) == "negative") = false from rfl,
      show (("positive" : String) == "positive") = true from rfl])

/-! ## C9: engagement scorer (`scorer.py score_engagement`) -/

theorem lookupD_cons_self (k : String) (v : ℚ) (m : List (String × ℚ)) :
    Scorer.lookupD ((k, v) :: m) k = v := by
  simp [Scorer.lookupD, List.find?]

theorem lookupD_cons_ne (k q : String) (v : ℚ) (m : List (String × ℚ))
    (h : k ≠ q) : Scorer.lookupD ((k, v) :: m) q = Scorer.lookupD m q := by
  simp only [Scorer.lookupD]
  rw [List.find?_cons_of_neg]
  simp [h]

theorem lookupD_not_mem (m : List (String × ℚ)) (k : String)
    (h : k ∉ m.map Prod.fst) : Scorer.lookupD m k = 0 := by
  induction m with
  | nil => rfl
  | cons a t ih =>
    obtain ⟨ka, va⟩ := a
    simp only [List.map_cons, List.mem_cons] at h
    push_neg at h
    rw [lookupD_cons_ne ka k va t (fun he => h.1 he.symm)]
    exact ih h.2

theorem lookupD_nonneg (m : List (String × ℚ)) (k : String)
    (h : ∀ p ∈ m, 0 ≤ p.2) : 0 ≤ Scorer.lookupD m k := by
  unfold Scorer.lookupD
  cases hf : m.find? (fun p => p.1 == k) with
  | none => exact le_refl 0
  | some p => exact h p (List.mem_of_find?_eq_some hf)

theorem lookupD_cons_le (k q : String) (v w : ℚ) (m : List (String × ℚ))
    (hvw : v ≤ w) :
    Scorer.lookupD ((k, v) :: m) q ≤ Scorer.lookupD ((k, w) :: m) q := by
  by_cases h : k = q
  · subst h
    rw [lookupD_cons_self, lookupD_cons_self]
    exact hvw
  · rw [lookupD_cons_ne _ _ _ _ h, lookupD_cons_ne _ _ _ _ h]

/-- The engagement score written as the explicit weighted sum of the five
recognized interaction counts. -/
theorem score_engagement_eq (m : List (String × ℚ)) :
    Scorer.score_engagement m = Scorer.roundTo2
      (Scorer.lookupD m "likes" * 1 + Scorer.lookupD m "retweets" * 3 +
       Scorer.lookupD m "reposts" * 3 + Scorer.lookupD m "replies" * 5 +
       Scorer.lookupD m "views" * (1/1000)) := by
  simp only [Scorer.score_engagement, Scorer.ENGAGEMENT_WEIGHTS, List.foldl,
    zero_add]

theorem roundTo2_nonneg {q : ℚ} (h : 0 ≤ q) : 0 ≤ Scorer.roundTo2 q := by
  unfold Scorer.roundTo2
  have h1 : (0 : ℤ) ≤ pyRound (q * 100) := pyRound_nonneg (by linarith)
  have h2 : (0 : ℚ) ≤ (pyRound (q * 100) : ℚ) := by exact_mod_cast h1
  linarith

theorem roundTo2_mono {q r : ℚ} (h : q ≤ r) :
    Scorer.roundTo2 q ≤ Scorer.roundTo2 r := by
  unfold Scorer.roundTo2
  have h1 : pyRound (q * 100) ≤ pyRound (r * 100) :=
    pyRound_mono (by linarith)
  have h2 : ((pyRound (q * 100) : ℤ) : ℚ) ≤ ((pyRound (r * 100) : ℤ) : ℚ) := by
    exact_mod_cast h1
  linarith

/-- C9: for non-negative interaction counts the engagement score is
non-negative; it is monotonically non-decreasing in each recognized
interaction count with the others held fixed; unknown keys do not affect the
result; and a missing key contributes 0. -/
theorem C9_score_engagement :
    (∀ m : List (String × ℚ), (∀ p ∈ m, 0 ≤ p.2) →
      0 ≤ Scorer.score_engagement m) ∧
    (∀ (m : List (String × ℚ)) (k : String) (v w : ℚ),
      k ∈ Scorer.ENGAGEMENT_WEIGHTS.map Prod.fst → v ≤ w →
      Scorer.score_engagement ((k, v) :: m) ≤
        Scorer.score_engagement ((k, w) :: m)) ∧
    (∀ (m : List (String × ℚ)) (k : String) (v : ℚ),
      k ∉ Scorer.ENGAGEMENT_WEIGHTS.map Prod.fst →
      Scorer.score_engagement ((k, v) :: m) = Scorer.score_engagement m) ∧
    (∀ (m : List (String × ℚ)) (k : String),
      k ∉ m.map Prod.fst → Scorer.lookupD m k = 0) := by
  refine ⟨?_, ?_, ?_, fun m k h => lookupD_not_mem m k h⟩
  · intro m hm
    rw [score_engagement_eq]
    apply roundTo2_nonneg
    have l1 := lookupD_nonneg m "likes" hm
    have l2 := lookupD_nonneg m "retweets" hm
    have l3 := lookupD_nonneg m "reposts" hm
    have l4 := lookupD_nonneg m "replies" hm
    have l5 := lookupD_nonneg m "views" hm
    linarith
  · intro m k v w _ hvw
    rw [score_engagement_eq, score_engagement_eq]
    apply roundTo2_mono
    have g1 := lookupD_cons_le k "likes" v w m hvw
    have g2 := lookupD_cons_le k "retweets" v w m hvw
    have g3 := lookupD_cons_le k "reposts" v w m hvw
    have g4 := lookupD_cons_le k "replies" v w m hvw
    have g5 := lookupD_cons_le k "views" v w m hvw
    linarith
  · intro m k v hk
    rw [score_engagement_eq, score_engagement_eq]
    simp only [Scorer.ENGAGEMENT_WEIGHTS, List.map_cons, List.map_nil,
      List.mem_cons, List.not_mem_nil, or_false] at hk
    push_neg at hk
    obtain ⟨h1, h2, h3, h4, h5⟩ := hk
    rw [lookupD_cons_ne _ _ _ _ h1, lookupD_cons_ne _ _ _ _ h2,
      lookupD_cons_ne _ _ _ _ h3, lookupD_cons_ne _ _ _ _ h4,
      lookupD_cons_ne _ _ _ _ h5]

/-- C9 witness: concrete instances of all four conjuncts. -/
theorem C9_witness :
    0 ≤ Scorer.score_engagement [("likes", 2)] ∧
    Scorer.score_engagement [("likes", 1), ("replies", 2)] ≤
      Scorer.score_engagement [("likes", 3), ("replies", 2)] ∧
    Scorer.score_engagement [("bogus", 7), ("likes", 1)] =
      Scorer.score_engagement [("likes", 1)] ∧
    Scorer.lookupD [("likes", 1)] "replies" = 0 :=
  ⟨C9_score_engagement.1 [("likes", 2)] (by norm_num),
   C9_score_engagement.2.1 [("replies", 2)] "likes" 1 3 (by decide) (by norm_num),
   C9_score_engagement.2.2.1 [("likes", 1)] "bogus" 7 (by decide),
   C9_score_engagement.2.2.2 [("likes", 1)] "replies" (by decide)⟩

/-! ## C7: percentage breakdown in the DailyScore entry -/

theorem countP_two_le_length {α : Type} (l : List α) (p q : α → Bool)
    (h : ∀ a, ¬(p a = true ∧ q a = true)) :
    l.countP p + l.countP q ≤ l.length := by
  induction l with
  | nil => simp
  | cons a t ih =>
    rw [List.countP_cons, List.countP_cons, List.length_cons]
    have ha := h a
    cases hp : p a <;> cases hq : q a
    · simp [hp, hq]
      omega
    · simp [hp, hq]
      omega
    · simp [hp, hq]
      omega
    · exact absurd ⟨hp, hq⟩ ha

theorem sentiment_not_both (t : Collect.ScoredTweet) :
    ¬((t.sentiment == "positive") = true ∧ (t.sentiment == "negative") = true) := by
  rintro ⟨h1, h2⟩
  rw [beq_iff_eq] at h1 h2
  rw [h1] at h2
  exact absurd h2 (by decide)

/-- C7: the DailyScore entry appended by the merge carries integer
percentages `round(count/total·100)`; when the batch is empty they are all
0, and when the batch is non-empty the three percentages sum to 100 up to
rounding error (their sum differs from 100 by at most 1). -/
theorem C7_daily_percentages (scored : List Collect.ScoredTweet)
    (today : String) (bs : ℤ) :
    ((Collect.mkDailyEntry scored today bs).positive =
        Collect.pct (scored.countP (fun t => t.sentiment == "positive"))
          scored.length ∧
      (Collect.mkDailyEntry scored today bs).negative =
        Collect.pct (scored.countP (fun t => t.sentiment == "negative"))
          scored.length ∧
      (Collect.mkDailyEntry scored today bs).neutral =
        Collect.pct (scored.length -
          scored.countP (fun t => t.sentiment == "positive") -
          scored.countP (fun t => t.sentiment == "negative"))
          scored.length) ∧
    (scored.length = 0 →
      (Collect.mkDailyEntry scored today bs).positive = 0 ∧
      (Collect.mkDailyEntry scored today bs).negative = 0 ∧
      (Collect.mkDailyEntry scored today bs).neutral = 0) ∧
    (0 < scored.length →
      |(Collect.mkDailyEntry scored today bs).positive +
          (Collect.mkDailyEntry scored today bs).negative +
          (Collect.mkDailyEntry scored today bs).neutral - 100| ≤ 1) ∧
    (∀ ex : Collect.Existing,
      (Collect.build_dashboard_json scored bs ex today).scores =
        Collect.updateScores ex.scores today
          (Collect.mkDailyEntry scored today bs)) := by
  refine ⟨⟨rfl, rfl, rfl⟩, fun h0 => ?_, fun ht => ?_, fun ex => rfl⟩
  · simp [Collect.mkDailyEntry, Collect.pct, h0]
  · simp only [Collect.mkDailyEntry]
    set P := scored.countP (fun t => t.sentiment == "positive") with hP
    set N := scored.countP (fun t => t.sentiment == "negative") with hN
    set T := scored.length with hT
    have hPN : P + N ≤ T :=
      countP_two_le_length scored _ _ (fun t => sentiment_not_both t)
    have hT0 : T ≠ 0 := by omega
    have hTq : (T : ℚ) ≠ 0 := Nat.cast_ne_zero.mpr hT0
    simp only [Collect.pct, if_neg hT0]
    set x := (P : ℚ) / (T : ℚ) * 100 with hx
    set y := (N : ℚ) / (T : ℚ) * 100 with hy
    set z := ((T - P - N : ℕ) : ℚ) / (T : ℚ) * 100 with hz
    have hxyz : x + y + z = 100 := by
      rw [hx, hy, hz]
      have hc : ((T - P - N : ℕ) : ℚ) = (T : ℚ) - P - N := by
        have hsub : T - P - N = T - (P + N) := by omega
        rw [hsub, Nat.cast_sub hPN]
        push_cast
        ring
      rw [hc]
      field_simp
      ring
    have b1 := abs_pyRound_sub_le x
    have b2 := abs_pyRound_sub_le y
    have b3 := abs_pyRound_sub_le z
    have hq : |((pyRound x + pyRound y + pyRound z - 100 : ℤ) : ℚ)| ≤ 3/2 := by
      push_cast
      have hrw : ((pyRound x : ℚ) + (pyRound y : ℚ) + (pyRound z : ℚ) - 100) =
          ((pyRound x : ℚ) - x) + ((pyRound y : ℚ) - y) +
            ((pyRound z : ℚ) - z) := by
        rw [← hxyz]
        ring
      rw [hrw]
      calc |((pyRound x : ℚ) - x) + ((pyRound y : ℚ) - y) +
              ((pyRound z : ℚ) - z)|
          ≤ |((pyRound x : ℚ) - x) + ((pyRound y : ℚ) - y)| +
              |((pyRound z : ℚ) - z)| := abs_add _ _
        _ ≤ |((pyRound x : ℚ) - x)| + |((pyRound y : ℚ) - y)| +
              |((pyRound z : ℚ) - z)| := by
            have := abs_add ((pyRound x : ℚ) - x) ((pyRound y : ℚ) - y)
            linarith
        _ ≤ 3/2 := by linarith
    rw [← Int.cast_abs] at hq
    by_contra hcon
    push_neg at hcon
    have h2 : (2 : ℤ) ≤ |pyRound x + pyRound y + pyRound z - 100| :=
      Int.lt_iff_add_one_le.mp hcon
    have h2q : ((2 : ℤ) : ℚ) ≤
        ((|pyRound x + pyRound y + pyRound z - 100| : ℤ) : ℚ) :=
      Int.cast_le.mpr h2
    rw [show ((2 : ℤ) : ℚ) = (2 : ℚ) from by norm_num] at h2q
    linarith

/-- C7 witness: a single positive tweet gives percentages 100/0/0, whose sum
is exactly 100. -/
theorem C7_witness :
    0 < ([⟨"1", "", "@u", "", "positive", 1/2, 10, 0, 0⟩] :
      List Collect.ScoredTweet).length ∧
    |(Collect.mkDailyEntry [⟨"1", "", "@u", "", "positive", 1/2, 10, 0, 0⟩]
        "2026-10-12" 59).positive +
      (Collect.mkDailyEntry [⟨"1", "", "@u", "", "positive", 1/2, 10, 0, 0⟩]
        "2026-10-12" 59).negative +
      (Collect.mkDailyEntry [⟨"1", "", "@u", "", "positive", 1/2, 10, 0, 0⟩]
        "2026-10-12" 59).neutral - 100| ≤ 1 :=
  ⟨by decide,
   (C7_daily_percentages [⟨"1", "", "@u", "", "positive", 1/2, 10, 0, 0⟩]
     "2026-10-12" 59).2.2.1 (by decide)⟩

/-! ## C2: date-keyed score-series merge -/

theorem mem_filter_date_ne (l : List Collect.DailyScore) (today : String)
    (s : Collect.DailyScore)
    (hs : s ∈ l.filter (fun s => s.date != today)) : s.date ≠ today := by
  have hb := (List.mem_filter.mp hs).2
  exact bne_iff_ne.mp hb

theorem updateScores_eq (existing : List Collect.DailyScore) (today : String)
    (e : Collect.DailyScore) :
    Collect.updateScores existing today e =
      (existing.filter (fun s => s.date != today)).drop
        (((existing.filter (fun s => s.date != today)).length + 1) - 90) ++
        [e] :=
  takeLast_append_singleton _ _ _ (by norm_num)

theorem updateScores_filter_today (existing : List Collect.DailyScore)
    (today : String) (e : Collect.DailyScore) (he : e.date = today) :
    (Collect.updateScores existing today e).filter
      (fun s => s.date == today) = [e] := by
  rw [updateScores_eq, List.filter_append]
  have h1 : ((existing.filter (fun s => s.date != today)).drop
      (((existing.filter (fun s => s.date != today)).length + 1) - 90)).filter
      (fun s => s.date == today) = [] := by
    rw [List.filter_eq_nil_iff]
    intro a ha
    have hmem : a ∈ existing.filter (fun s => s.date != today) :=
      (List.drop_sublist _ _).subset ha
    have hne := mem_filter_date_ne existing today a hmem
    simp [hne]
  rw [h1]
  simp [he]

theorem updateScores_nodup (existing : List Collect.DailyScore)
    (today : String) (e : Collect.DailyScore) (he : e.date = today)
    (h : (existing.map (fun s => s.date)).Nodup) :
    ((Collect.updateScores existing today e).map (fun s => s.date)).Nodup := by
  rw [updateScores_eq, List.map_append]
  rw [List.nodup_append]
  refine ⟨?_, by simp, ?_⟩
  · have hsub : (((existing.filter (fun s => s.date != today)).drop
        (((existing.filter (fun s => s.date != today)).length + 1) - 90)).map
          (fun s => s.date)).Sublist (existing.map (fun s => s.date)) :=
      List.Sublist.map _
        ((List.drop_sublist _ _).trans (List.filter_sublist _))
    exact List.Nodup.sublist hsub h
  · intro a ha hb
    obtain ⟨s, hs, rfl⟩ := List.mem_map.mp ha
    have hmem : s ∈ existing.filter (fun s => s.date != today) :=
      (List.drop_sublist _ _).subset hs
    have hne := mem_filter_date_ne existing today s hmem
    simp only [List.map_cons, List.map_nil, List.mem_singleton] at hb
    exact hne (hb.trans he)

set_option maxRecDepth 4000 in
/-- C2: for a score series with pairwise-distinct dates, the merge of
`build_dashboard_json` is the filter-append-cap of the claim, and after
merging twice for the same calendar date the series has exactly one entry for
that date — the second run's entry — and all dates are still distinct. -/
theorem C2_score_series (existing : Collect.Existing) (today : String)
    (scored1 scored2 : List Collect.ScoredTweet) (bs1 bs2 : ℤ)
    (h : (existing.scores.map (fun s => s.date)).Nodup) :
    (∀ (scored : List Collect.ScoredTweet) (bs : ℤ),
      (Collect.build_dashboard_json scored bs existing today).scores =
        takeLast (existing.scores.filter (fun s => s.date != today) ++
          [Collect.mkDailyEntry scored today bs]) 90) ∧
    ((Collect.build_dashboard_json scored2 bs2
        (Collect.toExisting (Collect.build_dashboard_json scored1 bs1
          existing today)) today).scores.countP
        (fun s => s.date == today) = 1 ∧
      (Collect.build_dashboard_json scored2 bs2
        (Collect.toExisting (Collect.build_dashboard_json scored1 bs1
          existing today)) today).scores.filter
        (fun s => s.date == today) =
        [Collect.mkDailyEntry scored2 today bs2] ∧
      ((Collect.build_dashboard_json scored2 bs2
        (Collect.toExisting (Collect.build_dashboard_json scored1 bs1
          existing today)) today).scores.map (fun s => s.date)).Nodup) := by
  refine ⟨fun scored bs => rfl, ?_, ?_, ?_⟩
  · rw [show (Collect.build_dashboard_json scored2 bs2
        (Collect.toExisting (Collect.build_dashboard_json scored1 bs1
          existing today)) today).scores =
      Collect.updateScores (Collect.updateScores existing.scores today
        (Collect.mkDailyEntry scored1 today bs1)) today
        (Collect.mkDailyEntry scored2 today bs2) from rfl]
    rw [List.countP_eq_length_filter,
      updateScores_filter_today _ today (Collect.mkDailyEntry scored2 today bs2)
        rfl]
    rfl
  · exact updateScores_filter_today _ today
      (Collect.mkDailyEntry scored2 today bs2) rfl
  · exact updateScores_nodup _ today (Collect.mkDailyEntry scored2 today bs2)
      rfl (updateScores_nodup _ today (Collect.mkDailyEntry scored1 today bs1)
        rfl h)

/-- C2 witness: two runs for the same date on an initially empty series leave
exactly the second run's entry. -/
theorem C2_witness :
    ((Collect.emptyExisting.scores.map (fun s => s.date)).Nodup) ∧
    (Collect.build_dashboard_json [] 60
        (Collect.toExisting (Collect.build_dashboard_json [] 40
          Collect.emptyExisting "2026-10-12")) "2026-10-12").scores.filter
        (fun s => s.date == "2026-10-12") =
      [Collect.mkDailyEntry [] "2026-10-12" 60] :=
  ⟨by decide,
   (C2_score_series Collect.emptyExisting "2026-10-12" [] [] 40 60
     (by decide)).2.2.1⟩

/-! ## C3: risk-alert merge (dedup by `post` key, cap 50) -/

theorem nodup_append_singleton {α : Type} (l : List α) (x : α)
    (hx : x ∉ l) (hl : l.Nodup) : (l ++ [x]).Nodup := by
  rw [List.nodup_append]
  refine ⟨hl, List.nodup_singleton x, ?_⟩
  intro a ha hb
  simp only [List.mem_singleton] at hb
  subst hb
  exact hx ha

theorem dedupAppend_nodup (acc : List Collect.RiskAlert)
    (a : Collect.RiskAlert) (h : (acc.map (fun r => r.post)).Nodup) :
    ((Collect.dedupAppend acc a).map (fun r => r.post)).Nodup := by
  unfold Collect.dedupAppend
  split_ifs with hc
  · exact h
  · have hnot : a.post ∉ acc.map (fun r => r.post) := by
      intro hmem
      obtain ⟨r, hr, he⟩ := List.mem_map.mp hmem
      exact hc (List.any_eq_true.mpr ⟨r, hr, by simp [he]⟩)
    simp only [List.map_append, List.map_cons, List.map_nil]
    exact nodup_append_singleton _ _ hnot h

theorem foldAlerts_nodup (news : List Collect.RiskAlert) :
    ∀ existing : List Collect.RiskAlert,
      (existing.map (fun r => r.post)).Nodup →
      ((Collect.foldAlerts existing news).map (fun r => r.post)).Nodup := by
  induction news with
  | nil => exact fun ex h => h
  | cons a t ih => exact fun ex h => ih _ (dedupAppend_nodup ex a h)

theorem foldAlerts_decomp (news : List Collect.RiskAlert) :
    ∀ existing : List Collect.RiskAlert,
      ∃ extras, Collect.foldAlerts existing news = existing ++ extras ∧
        ∀ a ∈ extras, a.post ∉ existing.map (fun r => r.post) := by
  induction news with
  | nil => exact fun ex => ⟨[], by simp [Collect.foldAlerts], by simp⟩
  | cons a t ih =>
    intro ex
    have hstep : Collect.foldAlerts ex (a :: t) =
        Collect.foldAlerts (Collect.dedupAppend ex a) t := rfl
    by_cases hc : ex.any (fun r => r.post == a.post) = true
    · have hd : Collect.dedupAppend ex a = ex := by
        unfold Collect.dedupAppend
        rw [if_pos hc]
      obtain ⟨ex2, he, hk⟩ := ih (Collect.dedupAppend ex a)
      rw [hd] at he hk
      exact ⟨ex2, by rw [hstep, hd, he], hk⟩
    · have hd : Collect.dedupAppend ex a = ex ++ [a] := by
        unfold Collect.dedupAppend
        rw [if_neg hc]
      obtain ⟨ex2, he, hk⟩ := ih (Collect.dedupAppend ex a)
      rw [hd] at he hk
      refine ⟨a :: ex2, ?_, ?_⟩
      · rw [hstep, hd, he]
        simp
      · intro b hb
        rw [List.mem_cons] at hb
        rcases hb with rfl | hb
        · intro hmem
          obtain ⟨r, hr, he'⟩ := List.mem_map.mp hmem
          exact hc (List.any_eq_true.mpr ⟨r, hr, by simp [he']⟩)
        · intro hmem
          apply hk b hb
          rw [List.map_append]
          exact List.mem_append_left _ hmem

/-- C3: starting from an alert list with pairwise-distinct `post` keys, the
merge keeps the keys pairwise distinct and the length at most 50; the fold
phase leaves the existing alerts unchanged in place (first-seen wins) and
only appends alerts whose key is new; the final list is the tail slice
`[-50:]` of the folded list; and this merge is exactly what
`build_dashboard_json` applies to the detected alerts. -/
theorem C3_risk_alerts (existing news : List Collect.RiskAlert)
    (h : (existing.map (fun r => r.post)).Nodup) :
    ((Collect.mergeAlerts existing news).map (fun r => r.post)).Nodup ∧
    (Collect.mergeAlerts existing news).length ≤ 50 ∧
    (∃ extras, Collect.foldAlerts existing news = existing ++ extras ∧
      ∀ a ∈ extras, a.post ∉ existing.map (fun r => r.post)) ∧
    Collect.mergeAlerts existing news =
      takeLast (Collect.foldAlerts existing news) 50 ∧
    (∀ (scored : List Collect.ScoredTweet) (bs : ℤ) (ex : Collect.Existing)
        (today : String),
      (Collect.build_dashboard_json scored bs ex today).riskAlerts =
        Collect.mergeAlerts ex.riskAlerts
          (scored.filterMap (Collect.detectAlert today))) := by
  refine ⟨?_, length_takeLast_le _ _, foldAlerts_decomp news existing, rfl,
    fun _ _ _ _ => rfl⟩
  have hn := foldAlerts_nodup news existing h
  have hsub : ((takeLast (Collect.foldAlerts existing news) 50).map
      (fun r => r.post)).Sublist
      ((Collect.foldAlerts existing news).map (fun r => r.post)) :=
    List.Sublist.map _ (takeLast_sublist _ _)
  exact List.Nodup.sublist hsub hn

/-- C3 witness: a new alert duplicating the stored key is dropped and the
stored alert survives unchanged, while a fresh key is appended. -/
theorem C3_witness :
    (([⟨"HIGH", "@u — 2026-10-11", "t1", "2026-10-11"⟩] :
      List Collect.RiskAlert).map (fun r => r.post)).Nodup ∧
    ((Collect.mergeAlerts [⟨"HIGH", "@u — 2026-10-11", "t1", "2026-10-11"⟩]
        [⟨"MEDIUM", "@u — 2026-10-11", "t2", "2026-10-11"⟩,
         ⟨"MEDIUM", "@v — 2026-10-12", "t3", "2026-10-12"⟩]).map
      (fun r => r.post)).Nodup ∧
    Collect.mergeAlerts [⟨"HIGH", "@u — 2026-10-11", "t1", "2026-10-11"⟩]
        [⟨"MEDIUM", "@u — 2026-10-11", "t2", "2026-10-11"⟩,
         ⟨"MEDIUM", "@v — 2026-10-12", "t3", "2026-10-12"⟩] =
      [⟨"HIGH", "@u — 2026-10-11", "t1", "2026-10-11"⟩,
       ⟨"MEDIUM", "@v — 2026-10-12", "t3", "2026-10-12"⟩] :=
  ⟨by decide,
   (C3_risk_alerts [⟨"HIGH", "@u — 2026-10-11", "t1", "2026-10-11"⟩]
     [⟨"MEDIUM", "@u — 2026-10-11", "t2", "2026-10-11"⟩,
      ⟨"MEDIUM", "@v — 2026-10-12", "t3", "2026-10-12"⟩] (by decide)).1,
   by decide⟩
